import Mathlib

/-!
# Verification of the agentic research-discovery pipeline

Shallow embedding of the governance and agent modules of the repository
(`src/agentic/src/governance/validator.py`, `policy_engine.py`,
`relevance_scorer.py`, `src/agentic/src/agent/react_agent.py`,
`planner.py`, and the dynamic threshold of `test_new_scorer.py`),
together with theorems settling the frozen claims about them.

Python dictionaries carrying paper metadata are embedded as a `Candidate`
structure with `Option` fields (a missing dictionary key is `none`; the
Python `dict.get(k, d)` default is `Option.getD`).  Float arithmetic on
scores is embedded over `ℚ`; years and citation counts are `ℤ`.
External effects (the search tool, the LLM) are oracle parameters of the
embedded loop, and a `try/except` outcome is an `Option`/`Bool` input.
String primitives are re-implemented over `List Char` so that every
definition evaluates by kernel reduction.
-/

namespace Spec2Proof

/-- A source candidate: the paper dictionaries flowing through the
pipeline.  Each field mirrors a dictionary key read by the code. -/
structure Candidate where
  title : Option String := none
  year : Option Int := none
  citations : Option Int := none
  url : Option String := none
  venue : Option String := none
  snippet : Option String := none
deriving DecidableEq, Repr

/-- Governance policies (`policy_engine.py`, class `Policies`). -/
structure Policies where
  min_year : Int := 1990
  min_citations : Int := 5
  require_peer_reviewed : Bool := false
  max_sources : Nat := 30
  include_preprints : Bool := true
deriving DecidableEq, Repr

/-- The default `Policies()` constructed in `policy_engine.py`. -/
def defaultPolicies : Policies := {}

/-- A governance violation.  The Python code builds f-strings carrying the
raw (possibly absent) candidate value and the policy bound; the payloads
preserve exactly that information. -/
inductive Violation where
  | tooOld (year : Option Int) (minYear : Int)
  | lowCitations (citations : Option Int) (minCitations : Int)
deriving DecidableEq, Repr

/-- Result of validating one source (`models/research_goal.py`,
`ValidationResult` as produced by `validator.py`). -/
structure ValidationResult where
  is_valid : Bool
  violations : List Violation
  confidence_score : ℚ
deriving DecidableEq, Repr

/-- Embeds `SourceValidator.validate_source` (`validator.py`, lines 15-50):
the year check and the citation check each append a violation, validity is
emptiness of the violation list, and confidence is `1.0` when valid, else
`max 0 (1 - 0.3·violations)`. -/
def validate_source (p : Policies) (c : Candidate) : ValidationResult :=
  let vs : List Violation :=
    (if c.year.getD 0 < p.min_year then [Violation.tooOld c.year p.min_year] else [])
      ++ (if c.citations.getD 0 < p.min_citations then
            [Violation.lowCitations c.citations p.min_citations] else [])
  let ok : Bool := vs.length == 0
  { is_valid := ok
    violations := vs
    confidence_score := if ok then 1 else max 0 (1 - vs.length * (3/10 : ℚ)) }

/-- Embeds `SourceValidator.validate_all_sources` (`validator.py`, lines
52-68): start from an empty list and append each source whose individual
validation passes. -/
def validate_all_sources (p : Policies) (sources : List Candidate) : List Candidate :=
  sources.foldl (fun acc s => if (validate_source p s).is_valid then acc ++ [s] else acc) []

/-! ## String primitives

Python string operations re-implemented over `List Char` (ASCII
fragment), so that they reduce inside the kernel. -/

/-- A regex word character (`\w` over the ASCII fragment). -/
def isWordChar (c : Char) : Bool := c.isAlphanum || c == '_'

/-- A lowercase ASCII letter, the `[a-z]` character class. -/
def isLowerAlpha (c : Char) : Bool := 'a' ≤ c && c ≤ 'z'

/-- Maximal runs of characters satisfying `p` (the accumulator holds the
current run reversed). -/
def runsBy (p : Char → Bool) : List Char → List Char → List (List Char)
  | [], cur => if cur.isEmpty then [] else [cur.reverse]
  | c :: cs, cur =>
      if p c then runsBy p cs (c :: cur)
      else if cur.isEmpty then runsBy p cs []
      else cur.reverse :: runsBy p cs []

/-- Lowercase a string (Python `str.lower` over the ASCII fragment),
returned as a character list. -/
def lowerL (s : String) : List Char := s.data.map Char.toLower

/-- Maximal word-character runs: with the all-letters length filter this
embeds `re.findall` of the keyword pattern in
`RelevanceScorer._extract_keywords`. -/
def wordRuns (l : List Char) : List (List Char) := runsBy isWordChar l []

/-- `needle` begins the list `hay` (list-level `startswith`). -/
def beginsWith : List Char → List Char → Bool
  | [], _ => true
  | _ :: _, [] => false
  | a :: as, b :: bs => a == b && beginsWith as bs

/-- `nd` occurs inside the character list. -/
def substrAux (nd : List Char) : List Char → Bool
  | [] => beginsWith nd []
  | c :: cs => beginsWith nd (c :: cs) || substrAux nd cs

/-- The Python `needle in haystack` substring test, haystack given as a
character list. -/
def inStr (needle : String) (haystack : List Char) : Bool :=
  substrAux needle.data haystack

/-- Python `str.strip` on a character list. -/
def trimL (l : List Char) : List Char :=
  ((l.dropWhile Char.isWhitespace).reverse.dropWhile Char.isWhitespace).reverse

/-- Python `str.strip`. -/
def trimS (s : String) : String := String.mk (trimL s.data)

/-- Python `str.split()` with no argument: maximal non-whitespace runs,
empties dropped. -/
def splitWords (l : List Char) : List String :=
  (runsBy (fun c => !c.isWhitespace) l []).map String.mk

/-- Python `" ".join`. -/
def joinWords : List String → String
  | [] => ""
  | w :: ws => ws.foldl (fun acc x => acc ++ " " ++ x) w

/-- Deduplicate keeping first occurrences (the order-insensitive uses of a
Python `set` are embedded as a duplicate-free list). -/
def dedupL (l : List String) : List String :=
  l.foldl (fun acc s => if s ∈ acc then acc else acc ++ [s]) []

/-! ## Relevance scorer (`governance/relevance_scorer.py`) -/

/-- Dynamic semantic groups: `Dict[str, List[str]]` in insertion order. -/
abbrev SemanticGroups := List (String × List String)

/-- Stopword set of `RelevanceScorer._extract_keywords`. -/
def scorerStopwords : List String :=
  ["the", "a", "an", "and", "or", "but", "in", "on", "at", "to", "for",
   "of", "with", "by", "from", "is", "are", "was", "were", "be", "been",
   "have", "has", "do", "does", "did", "will", "would", "could", "should",
   "that", "this", "these", "those", "as", "which", "who", "what", "where",
   "why", "how", "all", "each", "every", "both", "few", "more", "most",
   "some", "any", "it", "its", "our", "your", "their", "can", "may",
   "must", "shall", "review", "analysis", "study", "research", "paper",
   "et", "al", "survey", "literature", "b", "c"]

/-- Embeds `RelevanceScorer._extract_keywords`: lowercase, take the
word-character runs that are 3+ lowercase letters, drop stopwords, return
the resulting set. -/
def extract_keywords (text : String) : List String :=
  let good := (wordRuns (lowerL text)).filter (fun r => 3 ≤ r.length && r.all isLowerAlpha)
  dedupL ((good.map String.mk).filter (fun w => !(scorerStopwords.contains w)))

/-- Embeds `RelevanceScorer._is_semantic_match`. -/
def is_semantic_match (groups : SemanticGroups) (goal_kw : String)
    (paper_kws : List String) : Bool :=
  groups.any (fun g =>
    (beginsWith (g.1.data.take 3) (lowerL goal_kw)
        && g.2.any (fun v => paper_kws.contains v))
      || (g.2.contains goal_kw
            && g.2.any (fun v => paper_kws.contains v && v != goal_kw)))

/-- Embeds `RelevanceScorer._is_prefix_match` (stemming match: one keyword
begins with the other and the paper keyword is at most 3 characters
longer). -/
def is_stem_match (goal_kw : String) (paper_kws : List String) : Bool :=
  let gl := lowerL goal_kw
  paper_kws.any (fun p =>
    let pl := lowerL p
    (beginsWith gl pl || beginsWith pl gl)
      && ((pl.length : Int) - (gl.length : Int) ≤ 3))

/-- Embeds `RelevanceScorer._score_semantic_keywords`: 2 points per exact
match, 1.5 per semantic match, 1 per stemming match, coverage capped at 1,
plus a title bonus capped at 0.3, sum capped at 1. -/
def score_semantic_keywords (groups : SemanticGroups)
    (title snippet goal : String) : ℚ :=
  let goalK := extract_keywords goal
  let titleK := extract_keywords title
  let paperK := dedupL (titleK ++ extract_keywords snippet)
  if goalK.isEmpty || paperK.isEmpty then 0
  else
    let matched : ℚ := (goalK.map (fun kw =>
        if paperK.contains kw then (2 : ℚ)
        else if is_semantic_match groups kw paperK then 3/2
        else if is_stem_match kw paperK then 1
        else 0)).sum
    let coverage : ℚ := min 1 (matched / (goalK.length * 2))
    let titleMatch : ℚ :=
      (goalK.map (fun kw => if titleK.contains kw then (2 : ℚ) else 0)).sum
    let titleBonus : ℚ := min (3/10) ((titleMatch / goalK.length) * (1/2))
    min 1 (coverage + titleBonus)

/-- Embeds `RelevanceScorer._score_recency` (tiers on `current_year -
year`). -/
def score_recency (current_year year : Int) : ℚ :=
  let yearsOld := current_year - year
  if yearsOld ≤ 1 then 1
  else if yearsOld ≤ 3 then 95/100
  else if yearsOld ≤ 7 then 85/100
  else if yearsOld ≤ 15 then 7/10
  else if yearsOld ≤ 25 then 6/10
  else 4/10

/-- Embeds `RelevanceScorer._score_citation_authority` (tiers on the
citation count). -/
def score_citation_authority (citations : Int) : ℚ :=
  if 1000 ≤ citations then 1
  else if 500 ≤ citations then 95/100
  else if 100 ≤ citations then 85/100
  else if 50 ≤ citations then 7/10
  else if 20 ≤ citations then 55/100
  else if 10 ≤ citations then 4/10
  else 1/5

/-- Premium venue substrings of `RelevanceScorer._score_venue_domain`. -/
def premiumVenues : List String :=
  ["neurips", "nips", "icml", "iclr", "iccv", "cvpr", "emnlp", "acl",
   "naacl", "aaai", "ijcai", "jmlr"]

/-- Embeds `RelevanceScorer._score_venue_domain` (note the code matches
the premium substrings against the venue string as given, without
lowercasing it). -/
def score_venue_domain (venue goal : String) : ℚ :=
  let gl := lowerL goal
  let v := venue.data
  let base : ℚ := if premiumVenues.any (fun pv => inStr pv v) then 95/100 else 3/10
  let afterNlp : ℚ :=
    if inStr "transformer" gl || inStr "nlp" gl then
      if ["acl", "emnlp", "naacl"].any (fun kw => inStr kw v) then 1
      else if inStr "neurips" v || inStr "icml" v then 9/10
      else base
    else base
  if inStr "computer vision" gl || inStr "vision" gl then
    if ["cvpr", "iccv"].any (fun kw => inStr kw v) then 1 else afterNlp
  else afterNlp

/-- Embeds `RelevanceScorer.score_relevance`: missing title/venue/snippet
default to `""`, a missing year to the literal `2023`, missing citations
to `0`; the weighted combination is clamped to `[0, 1]`.  The scorer's
`self.current_year` (set from `datetime.now().year`) is the
`current_year` parameter. -/
def score_relevance (groups : SemanticGroups) (current_year : Int)
    (paper : Candidate) (goal : String) : ℚ :=
  let title := paper.title.getD ""
  let year := paper.year.getD 2023
  let citations := paper.citations.getD 0
  let venue := paper.venue.getD ""
  let snippet := paper.snippet.getD ""
  let semantic := score_semantic_keywords groups title snippet goal
  let citation := score_citation_authority citations
  let recency := score_recency current_year year
  let metadata := score_venue_domain venue goal
  let final : ℚ :=
    (70/100) * semantic + (15/100) * citation + (10/100) * recency + (5/100) * metadata
  min 1 (max 0 final)

/-- Embeds `RelevanceScorer.batch_score`. -/
def batch_score (groups : SemanticGroups) (current_year : Int)
    (papers : List Candidate) (goal : String) : List ℚ :=
  papers.map (fun p => score_relevance groups current_year p goal)

/-! ## ReAct agent loop (`agent/react_agent.py`, `execute_loop`) -/

/-- The fixed relevance threshold of `execute_loop` (line 103,
`relevance_threshold = 0.50`). -/
def relevance_threshold : ℚ := 50/100

/-- The minimum candidate floor triggering search expansion (line 164,
`min_target_sources = 5`). -/
def min_target_sources : Nat := 5

/-- Phase-2 relevance filter of `execute_loop` (lines 101-160).  The loop
body keeps a source iff its batch score reaches the fixed threshold
(`batch_score` returns one score per paper, so the `i < len(scores)`
guard never fails).  The scorer is constructed with no semantic groups.
If the `try` block raises (`scoring_fails`), the `except` arm assigns the
whole validated list; if the validated list is empty the block is
skipped. -/
def relevancePhase (current_year : Int) (goal : String) (validated : List Candidate)
    (scoring_fails : Bool) : List Candidate :=
  if validated.isEmpty then []
  else if scoring_fails then validated
  else validated.filter (fun s =>
    relevance_threshold ≤ score_relevance [] current_year s goal)

/-- The keyword → variants table of
`ReActAgent._generate_expansion_queries`. -/
def keyword_map : List (String × List String) :=
  [("transformer", ["attention mechanism", "BERT", "GPT", "T5"]),
   ("architecture", ["neural network design", "model structure", "encoder decoder"]),
   ("optimization", ["training efficiency", "inference speed", "computational efficiency"]),
   ("efficiency", ["parameter reduction", "pruning", "quantization", "distillation"]),
   ("improvement", ["advances", "enhancement", "breakthrough", "innovation"]),
   ("neural", ["deep learning", "machine learning", "representation learning"])]

/-- Embeds `ReActAgent._generate_expansion_queries`: for each table key
occurring in the lowered goal, combine it with its first two variants not
already in the goal, dropping duplicate queries; fall back to four generic
queries; return at most 4. -/
def generate_expansion_queries (research_goal : String) : List String :=
  let gl := lowerL research_goal
  let qs := keyword_map.foldl (fun acc kv =>
    if inStr kv.1 gl then
      (kv.2.take 2).foldl (fun acc2 v =>
        if !(inStr v gl) then
          let nq := kv.1 ++ " " ++ v
          if acc2.contains nq then acc2 else acc2 ++ [nq]
        else acc2) acc
    else acc) []
  let qs := if qs.isEmpty then
      ["transformer model architecture", "neural network optimization",
       "deep learning efficiency", "attention mechanism improvements"]
    else qs
  qs.take 4

/-- One merge step of the expansion sub-loop (`execute_loop` lines
184-192): append each newly searched source whose score reaches the fixed
threshold and whose TITLE does not already occur among the accepted
sources. -/
def mergeScored (current_year : Int) (goal : String)
    (relevant newSources : List Candidate) : List Candidate :=
  newSources.foldl (fun acc s =>
    if relevance_threshold ≤ score_relevance [] current_year s goal
        ∧ ¬ (acc.any (fun t => t.title.getD "" == s.title.getD "")) then
      acc ++ [s]
    else acc) relevant

/-- The expansion sub-loop over its queries (`execute_loop` lines
176-199): each query is searched with `max_results = 10` (a `none` result
is a failed tool call or an exception caught by the `except` arm); after a
successful merge the loop breaks once the floor of 5 accepted sources is
reached.  Returns the accepted sources and the number of queries
executed. -/
def expansionGo (current_year : Int) (goal : String)
    (search : String → Nat → Option (List Candidate)) :
    List String → List Candidate → Nat → List Candidate × Nat
  | [], relevant, n => (relevant, n)
  | q :: qs, relevant, n =>
      match search q 10 with
      | none => expansionGo current_year goal search qs relevant (n + 1)
      | some newSources =>
          let relevant2 := mergeScored current_year goal relevant newSources
          if min_target_sources ≤ relevant2.length then (relevant2, n + 1)
          else expansionGo current_year goal search qs relevant2 (n + 1)

/-- Inputs to one run of `ReActAgent.execute_loop`.  `search` is the
`search_papers` tool (query and `max_results`; `none` is a failed call),
`refinement_lines` the lines of the LLM's adaptive-refinement completion
(`none` when the LLM call raises), `scoring_fails` whether the batch
relevance-scoring `try` block raises. -/
structure LoopInput where
  search_queries : List String
  max_sources : Nat
  search : String → Nat → Option (List Candidate)
  refinement_lines : Option (List String)
  policies : Policies
  research_goal : String
  current_year : Int
  scoring_fails : Bool

/-- The observable outcome of `execute_loop`: the returned `sources_found`
and `sources_validated`, plus (for the intermediate claims) the
governance-validated list, the relevance-filtered list before expansion,
and the number of expansion queries executed. -/
structure LoopResult where
  sources_found : List Candidate
  validated_gov : List Candidate
  relevant_pre : List Candidate
  expansion_count : Nat
  sources_validated : List Candidate

/-- Folding the search tool over a list of queries, appending successful
result batches (`execute_loop` lines 26-49 and 74-86). -/
def searchAll (search : String → Nat → Option (List Candidate))
    (queries : List String) (maxResults : Nat) (acc : List Candidate) : List Candidate :=
  queries.foldl (fun l q =>
    match search q maxResults with
    | some srcs => l ++ srcs
    | none => l) acc

/-- Phase 1 plus adaptive refinement of `execute_loop` (lines 25-94):
run the planned queries, and when fewer than half the target was found,
run up to two LLM-refined queries (each refined line stripped and kept
when longer than 5 characters); a `none` refinement is the `except`
arm, which leaves `all_sources` unchanged. -/
def gather_sources (inp : LoopInput) : List Candidate :=
  let phase1 := searchAll inp.search inp.search_queries 20 []
  if phase1.length < inp.max_sources / 2 then
    match inp.refinement_lines with
    | none => phase1
    | some lines =>
        let new_queries := ((lines.map trimS).filter (fun q => 5 < q.length)).take 2
        searchAll inp.search new_queries 20 phase1
  else phase1

/-- Embeds `ReActAgent.execute_loop` (search, adaptive refinement,
governance validation, relevance filter, search expansion, truncation).
Note that expansion-merged sources are appended to `relevant_sources`
only — `all_sources` (the returned `sources_found`) is never extended by
the expansion sub-loop. -/
def execute_loop (inp : LoopInput) : LoopResult :=
  let all_sources := gather_sources inp
  let validated := validate_all_sources inp.policies all_sources
  let relevant := relevancePhase inp.current_year inp.research_goal validated inp.scoring_fails
  let exp :=
    if relevant.length < min_target_sources then
      expansionGo inp.current_year inp.research_goal inp.search
        ((generate_expansion_queries inp.research_goal).take 2) relevant 0
    else (relevant, 0)
  { sources_found := all_sources
    validated_gov := validated
    relevant_pre := relevant
    expansion_count := exp.2
    sources_validated := exp.1.take inp.max_sources }

/-! ## Dynamic threshold of the scorer test harness
(`test_new_scorer.py`, `score_papers`) -/

/-- `max(scores) if scores else 0`. -/
def maxScore : List ℚ → ℚ
  | [] => 0
  | s :: rest => rest.foldl max s

/-- Embeds the dynamic threshold computation of
`test_new_scorer.py::score_papers` (lines 84-91). -/
def chooseThreshold (scores : List ℚ) : ℚ :=
  if maxScore scores < 45/100 then 20/100
  else if maxScore scores < 60/100 then 25/100
  else 35/100

/-- Modelled from the spec: the adaptive retention the spec describes for
the relevance filter — keep exactly the candidates whose score reaches
the threshold chosen by `ChooseThreshold` from the batch's maximum score.
Stated from the spec's words for comparison against the agent loop's
actual filter `relevancePhase`. -/
def adaptiveRetention (current_year : Int) (goal : String)
    (validated : List Candidate) : List Candidate :=
  let scores := batch_score [] current_year validated goal
  validated.filter (fun s =>
    chooseThreshold scores ≤ score_relevance [] current_year s goal)

/-! ## Heuristic goal decomposition (`agent/planner.py`,
`_decompose_goal_heuristic`) -/

/-- Noise-word set of `Planner._decompose_goal_heuristic`. -/
def plannerNoiseWords : List String :=
  ["find", "analyze", "papers", "on", "about", "what", "is", "the",
   "for", "and", "or", "a", "an", "this", "that", "would", "like",
   "to", "know", "of", "previous", "i", "you", "we", "they", "it",
   "get", "set", "see", "make", "do", "have", "be", "help", "give",
   "research", "study", "review", "explore", "investigate", "examine"]

/-- Python `max(ws, key=len)` over `w :: ws`: the first element of
maximal length (replace only on strictly greater length). -/
def firstLongest (w : String) (ws : List String) : String :=
  ws.foldl (fun best x => if best.data.length < x.data.length then x else best) w

/-- Stable insertion (descending by length) for
`sorted(key_terms, key=len, reverse=True)`. -/
def insertDescLen (x : String) : List String → List String
  | [] => [x]
  | y :: ys => if x.data.length < y.data.length then y :: insertDescLen x ys
      else x :: y :: ys

/-- Python's stable `sorted(·, key=len, reverse=True)`. -/
def sortDescLen (l : List String) : List String := l.foldr insertDescLen []

/-- The ML-context indicator terms of query 3. -/
def mlIndicators : List String :=
  ["learning", "neural", "deep", "model", "network", "ai", "llm", "agent"]

/-- The dedup pass of `Planner._decompose_goal_heuristic` (lines
150-161): keep a query's stripped form when it is new, longer than 2
characters, and not made of noise words only (the `seen` set coincides
with the accumulated output). -/
def dedupPlannerQueries (queries : List String) : List String :=
  queries.foldl (fun acc q =>
    let qc := trimS q
    if qc ∉ acc ∧ 2 < qc.data.length
        ∧ (splitWords (lowerL qc)).any (fun w => !(plannerNoiseWords.contains w)) then
      acc ++ [qc]
    else acc) []

/-- Embeds `Planner._decompose_goal_heuristic` (planner.py lines 81-163):
lowercase and strip the goal, extract key terms by dropping noise words,
build up to five candidate queries, deduplicate preserving order while
dropping short or all-noise queries, and return at most 5. -/
def decompose_goal_heuristic (research_goal : String) : List String :=
  let goal := trimL (lowerL research_goal)
  let words := splitWords goal
  let keyTerms0 := words.filter (fun w =>
    !(plannerNoiseWords.contains w) && 2 < (trimS w).length)
  let keyTerms1 := if keyTerms0.isEmpty
    then words.filter (fun w => 2 < (trimS w).length) else keyTerms0
  let key_terms := if keyTerms1.isEmpty then words else keyTerms1
  let q1 : List String :=
    if key_terms.isEmpty then [] else [joinWords (key_terms.take 6)]
  let q2 : List String :=
    if key_terms.isEmpty then [] else [joinWords (key_terms.take 4) ++ " survey"]
  let q3 : List String :=
    if key_terms.isEmpty then []
    else
      let combined := joinWords key_terms
      let hasMl := mlIndicators.any (fun t => inStr t combined.data)
      if !hasMl && !(inStr "routing" combined.data) && !(inStr "protocol" combined.data) then
        [combined ++ " learning"]
      else if 1 < key_terms.length then [joinWords (key_terms.take 3)]
      else []
  let q4 : List String :=
    match key_terms with
    | [] => []
    | t :: rest => if rest.isEmpty then [] else [firstLongest t (rest.take 2)]
  let q5 : List String :=
    if 2 ≤ key_terms.length then [joinWords ((sortDescLen key_terms).take 3)] else []
  let queries := q1 ++ q2 ++ q3 ++ q4 ++ q5
  (dedupPlannerQueries queries).take 5

/-! ## Concrete inputs used by counterexamples and witnesses -/

/-- A phase-1 candidate for the C1 run: passes governance (year 2020,
10 citations) but scores 4/25 against the goal "transformer" (no title
keywords), below the 0.50 threshold. -/
def phaseOneCand (u : String) : Candidate :=
  { year := some 2020, citations := some 10, url := some u }

/-- The candidate merged by the expansion sub-loop in the C1 run: its
title matches the goal ("transformer"), scoring 21/25 ≥ 0.50, and its url
is fresh. -/
def cNew : Candidate := { title := some "transformer", url := some "unew" }

/-- The five phase-1 candidates of the C1 run. -/
def c1Five : List Candidate :=
  [phaseOneCand "u1", phaseOneCand "u2", phaseOneCand "u3",
   phaseOneCand "u4", phaseOneCand "u5"]

/-- Search oracle for the C1 run: the planned query returns five
validating but irrelevant candidates; the first expansion query (issued
with `max_results = 10`) returns `cNew`; everything else fails. -/
def c1Search : String → Nat → Option (List Candidate) := fun q n =>
  if q = "q1" ∧ n = 20 then some c1Five
  else if q = "transformer attention mechanism" ∧ n = 10 then some [cNew]
  else none

/-- The C1 loop input: one planned query, default policies, goal
"transformer", scorer year 2026, batch scoring succeeds. -/
def c1Input : LoopInput :=
  { search_queries := ["q1"]
    max_sources := 10
    search := c1Search
    refinement_lines := none
    policies := {}
    research_goal := "transformer"
    current_year := 2026
    scoring_fails := false }

/-- An accepted candidate already holding url "u" (for the C7
counterexample). -/
def cOld : Candidate := { title := some "A", url := some "u" }

/-- An expansion result sharing `cOld`'s url under a different title. -/
def cDup : Candidate := { title := some "transformer", url := some "u" }

/-- Search oracle for the C7 counterexample: the first expansion query
returns the url-duplicate `cDup`. -/
def dupSearch : String → Nat → Option (List Candidate) := fun q _ =>
  if q = "transformer attention mechanism" then some [cDup] else none

/-- Four accepted candidates with distinct titles: one successful merge
away from the 5-candidate floor (exercises the early stop of the
expansion sub-loop). -/
def rel4 : List Candidate :=
  [{ title := some "A" }, { title := some "B" },
   { title := some "C" }, { title := some "D" }]

/-- The candidate of the C3 counterexample: scores 119/400 = 0.2975
against the empty goal (1000 citations, current-year paper, premium
venue, no keyword overlap possible). -/
def cPremium : Candidate :=
  { year := some 2026, citations := some 1000, venue := some "neurips" }

/-- A trivial loop input with failing batch scoring (C10 witness). -/
def noopInput : LoopInput :=
  { search_queries := []
    max_sources := 30
    search := fun _ _ => none
    refinement_lines := none
    policies := {}
    research_goal := ""
    current_year := 2026
    scoring_fails := true }

end Spec2Proof

namespace Spec2Proof

/-! ## Theorems -/

lemma validate_all_sources_foldl (p : Policies) (sources acc : List Candidate) :
    sources.foldl (fun l s => if (validate_source p s).is_valid then l ++ [s] else l) acc
      = acc ++ sources.filter (fun s => (validate_source p s).is_valid) := by
  induction sources generalizing acc with
  | nil => simp
  | cons s rest ih =>
      by_cases h : (validate_source p s).is_valid
      · simp [List.foldl, h, ih, List.filter]
      · simp [List.foldl, h, ih, List.filter]

/-- C5: `validate_all_sources` returns exactly the passing subsequence of
its input, in the input's relative order. -/
theorem validate_all_eq_filter (p : Policies) (sources : List Candidate) :
    validate_all_sources p sources
      = sources.filter (fun s => (validate_source p s).is_valid)
      ∧ (validate_all_sources p sources).Sublist sources := by
  have h := validate_all_sources_foldl p sources []
  refine ⟨by simp [validate_all_sources, h], ?_⟩
  rw [validate_all_sources, h, List.nil_append]
  exact List.filter_sublist sources

/-- C4: validity is emptiness of the violation list, the age and citation
violations fire independently of one another, and confidence is
`1 - 0.3` per violation, floored at `0`. -/
theorem validate_source_spec (p : Policies) (c : Candidate) :
    ((validate_source p c).is_valid = true ↔ (validate_source p c).violations = [])
    ∧ (Violation.tooOld c.year p.min_year ∈ (validate_source p c).violations
        ↔ c.year.getD 0 < p.min_year)
    ∧ (Violation.lowCitations c.citations p.min_citations ∈ (validate_source p c).violations
        ↔ c.citations.getD 0 < p.min_citations)
    ∧ (validate_source p c).confidence_score
        = max 0 (1 - (validate_source p c).violations.length * (3/10 : ℚ)) := by
  by_cases hy : c.year.getD 0 < p.min_year <;>
    by_cases hc : c.citations.getD 0 < p.min_citations <;>
      simp [validate_source, hy, hc]

/-- C9: a candidate missing its `year` (resp. `citations`) key is compared
as `0`, so any policy with a positive bound rejects it with the
corresponding violation. -/
theorem validate_source_missing_keys (p : Policies) (c : Candidate) :
    (c.year = none → 0 < p.min_year →
      (validate_source p c).is_valid = false
        ∧ Violation.tooOld none p.min_year ∈ (validate_source p c).violations)
    ∧ (c.citations = none → 0 < p.min_citations →
      (validate_source p c).is_valid = false
        ∧ Violation.lowCitations none p.min_citations ∈ (validate_source p c).violations) := by
  constructor
  · intro hy hp
    have h0 : c.year.getD 0 < p.min_year := by simp [hy, hp]
    by_cases hc : c.citations.getD 0 < p.min_citations <;>
      simp [validate_source, hy, h0, hc, hp]
  · intro hcit hp
    have h0 : c.citations.getD 0 < p.min_citations := by simp [hcit, hp]
    by_cases hy : c.year.getD 0 < p.min_year <;>
      simp [validate_source, hy, h0, hcit, hp]

/-- Witness for C9 at the default policies and the empty candidate. -/
theorem validate_source_missing_keys_witness :
    (validate_source defaultPolicies {}).is_valid = false
      ∧ Violation.tooOld none defaultPolicies.min_year
          ∈ (validate_source defaultPolicies {}).violations := by
  exact (validate_source_missing_keys defaultPolicies {}).1 rfl (by decide)

/-- C2: `score_relevance` always lands in the closed interval `[0, 1]`,
for every candidate (including pathological ones) and every goal. -/
theorem score_relevance_mem_unit (groups : SemanticGroups) (current_year : Int)
    (paper : Candidate) (goal : String) :
    0 ≤ score_relevance groups current_year paper goal
      ∧ score_relevance groups current_year paper goal ≤ 1 := by
  unfold score_relevance
  constructor
  · exact le_min (by norm_num) (le_max_left 0 _)
  · exact min_le_left 1 _

/-- C8 (amended): scoring a candidate with missing `year` and `citations`
keys is the same as scoring it with the literal defaults `year = 2023`
and `citations = 0` — the code's defaults are those constants (the year
default is NOT the scorer's current year). -/
theorem score_relevance_missing_defaults (groups : SemanticGroups) (current_year : Int)
    (c : Candidate) (goal : String) (hy : c.year = none) (hc : c.citations = none) :
    score_relevance groups current_year c goal
      = score_relevance groups current_year
          { c with year := some 2023, citations := some 0 } goal := by
  simp [score_relevance, hy, hc]

/-- Witness for the amended C8 at a concrete candidate. -/
theorem score_relevance_missing_defaults_witness :
    score_relevance [] 2026 {} ""
      = score_relevance [] 2026 { year := some 2023, citations := some 0 } "" :=
  score_relevance_missing_defaults [] 2026 {} "" rfl rfl

lemma score_relevance_empty_missing_year :
    score_relevance [] 2026 {} "" = 7/50 := by
  have e : extract_keywords "" = [] := by decide
  simp only [score_relevance, score_semantic_keywords, e, Option.getD_none]
  norm_num [score_citation_authority, score_recency, score_venue_domain,
    inStr, substrAux, beginsWith, lowerL, premiumVenues]

lemma score_relevance_empty_year_2026 :
    score_relevance [] 2026 { year := some 2026, citations := some 0 } "" = 29/200 := by
  have e : extract_keywords "" = [] := by decide
  simp only [score_relevance, score_semantic_keywords, e, Option.getD_none, Option.getD_some]
  norm_num [score_citation_authority, score_recency, score_venue_domain,
    inStr, substrAux, beginsWith, lowerL, premiumVenues]

/-- C8 counterexample: with the scorer's current year set to 2026
(`datetime.now().year`), a candidate with a missing `year` key is NOT
scored as if its year were the current year: the code's default is the
literal 2023, which puts the recency component in a lower tier (0.95
instead of 1.0), so the two scores differ (7/50 vs 29/200). -/
theorem score_relevance_default_not_current_year :
    ¬ (score_relevance [] 2026 {} ""
        = score_relevance [] 2026 { year := some 2026, citations := some 0 } "") := by
  rw [score_relevance_empty_missing_year, score_relevance_empty_year_2026]
  norm_num

lemma relevancePhase_fails (current_year : Int) (goal : String) (v : List Candidate) :
    relevancePhase current_year goal v true = v := by
  unfold relevancePhase
  split
  · next hv => exact (List.isEmpty_iff.mp hv).symm
  · rfl

/-- C10: if batch relevance scoring raises, the relevance filter is a
no-op — the relevant set is exactly the governance-validated list,
unchanged and in order. -/
theorem relevance_filter_noop_on_failure (inp : LoopInput)
    (h : inp.scoring_fails = true) :
    (execute_loop inp).relevant_pre = (execute_loop inp).validated_gov := by
  simp only [execute_loop, h, relevancePhase_fails]

/-- Witness for C10 at a concrete input. -/
theorem relevance_filter_noop_on_failure_witness :
    (execute_loop noopInput).relevant_pre = (execute_loop noopInput).validated_gov :=
  relevance_filter_noop_on_failure noopInput rfl

lemma dedupFold_nodup (qs : List String) (acc : List String) (hacc : acc.Nodup) :
    (qs.foldl (fun acc q =>
      let qc := trimS q
      if qc ∉ acc ∧ 2 < qc.data.length
          ∧ (splitWords (lowerL qc)).any (fun w => !(plannerNoiseWords.contains w)) then
        acc ++ [qc]
      else acc) acc).Nodup := by
  induction qs generalizing acc with
  | nil => exact hacc
  | cons q rest ih =>
      simp only [List.foldl]
      split
      · next hcnd => exact ih _ (List.Nodup.append hacc (List.nodup_singleton _)
          (by simpa using fun hmem => hcnd.1 hmem))
      · exact ih _ hacc

lemma dedupPlannerQueries_nodup (qs : List String) :
    (dedupPlannerQueries qs).Nodup :=
  dedupFold_nodup qs [] List.nodup_nil

/-- C6: the heuristic fallback planner is a pure function — two
invocations on the same goal agree — and its output is deduplicated and
holds at most 5 queries. -/
theorem decompose_goal_heuristic_deterministic (research_goal : String) :
    decompose_goal_heuristic research_goal = decompose_goal_heuristic research_goal
    ∧ (decompose_goal_heuristic research_goal).Nodup
    ∧ (decompose_goal_heuristic research_goal).length ≤ 5 := by
  refine ⟨rfl, ?_, ?_⟩
  · unfold decompose_goal_heuristic
    exact List.Sublist.nodup (List.take_sublist _ _) (dedupPlannerQueries_nodup _)
  · unfold decompose_goal_heuristic
    exact List.length_take_le 5 _

lemma score_cPremium : score_relevance [] 2026 cPremium "" = 119/400 := by
  have e : extract_keywords "" = [] := by decide
  simp only [score_relevance, cPremium, score_semantic_keywords, e,
    Option.getD_some, Option.getD_none]
  norm_num [score_citation_authority, score_recency, score_venue_domain,
    inStr, substrAux, beginsWith, lowerL, premiumVenues]

/-- C3 counterexample: the retention actually performed by the agent loop
is NOT the adaptive-threshold retention the claim describes.  On the
batch `[cPremium]` (single score 119/400 = 0.2975, so batch max < 0.45
and the claimed threshold is 0.20) the adaptive rule keeps the candidate,
but the loop's fixed 0.50 threshold rejects it. -/
theorem agent_retention_not_adaptive :
    relevancePhase 2026 "" [cPremium] false ≠ adaptiveRetention 2026 "" [cPremium] := by
  simp only [relevancePhase, adaptiveRetention, batch_score, chooseThreshold, maxScore,
    relevance_threshold, List.map, List.foldl, List.filter, score_cPremium]
  norm_num

/-- C3 (amended): the three-tier adaptive threshold (max < 0.45 → 0.20,
max < 0.60 → 0.25, else 0.35) is the dynamic threshold of the scorer
test harness (`test_new_scorer.py::score_papers`); the agent loop itself
retains scored candidates with the fixed threshold 0.50. -/
theorem adaptive_threshold_tiers (scores : List ℚ) (current_year : Int)
    (goal : String) (validated : List Candidate) :
    (maxScore scores < 45/100 → chooseThreshold scores = 20/100)
    ∧ (45/100 ≤ maxScore scores → maxScore scores < 60/100 →
        chooseThreshold scores = 25/100)
    ∧ (60/100 ≤ maxScore scores → chooseThreshold scores = 35/100)
    ∧ relevancePhase current_year goal validated false
        = validated.filter (fun s =>
            (50/100 : ℚ) ≤ score_relevance [] current_year s goal) := by
  refine ⟨?_, ?_, ?_, ?_⟩
  · intro h; simp [chooseThreshold, h]
  · intro h1 h2; simp [chooseThreshold, not_lt.mpr h1, h2]
  · intro h
    have h45 : ¬ maxScore scores < 45/100 :=
      not_lt.mpr (le_trans (by norm_num) h)
    simp [chooseThreshold, not_lt.mpr h, h45]
  · unfold relevancePhase
    split
    · next hv => rw [List.isEmpty_iff.mp hv]; rfl
    · rfl

/-- Witness for the amended C3: the claim's two scenarios, max 0.30 gives
threshold 0.20 and max 0.80 gives threshold 0.35. -/
theorem adaptive_threshold_tiers_witness :
    chooseThreshold [30/100] = 20/100 ∧ chooseThreshold [80/100] = 35/100 :=
  ⟨(adaptive_threshold_tiers [30/100] 2026 "" []).1 (by norm_num [maxScore]),
   (adaptive_threshold_tiers [80/100] 2026 "" []).2.2.1 (by norm_num [maxScore])⟩

lemma mergeScored_titles_nodup (current_year : Int) (goal : String)
    (srcs : List Candidate) :
    ∀ rel : List Candidate, (rel.map (fun c => c.title.getD "")).Nodup →
      ((mergeScored current_year goal rel srcs).map (fun c => c.title.getD "")).Nodup := by
  induction srcs with
  | nil => exact fun rel h => h
  | cons s ss ih =>
      intro rel h
      simp only [mergeScored, List.foldl]
      split
      · next hcnd =>
          refine ih _ ?_
          rw [List.map_append]
          refine List.Nodup.append h (by simp) ?_
          intro a ha hb
          simp only [List.map_cons, List.map_nil, List.mem_singleton] at hb
          subst hb
          rcases List.mem_map.mp ha with ⟨t, ht, hte⟩
          exact hcnd.2 (List.any_eq_true.mpr ⟨t, ht, by simp [hte]⟩)
      · exact ih _ h

lemma expansionGo_spec (current_year : Int) (goal : String)
    (search : String → Nat → Option (List Candidate)) (qs : List String) :
    ∀ (rel : List Candidate) (n : Nat),
      (expansionGo current_year goal search qs rel n).2 ≤ n + qs.length
      ∧ ((expansionGo current_year goal search qs rel n).2 < n + qs.length →
          min_target_sources ≤ (expansionGo current_year goal search qs rel n).1.length) := by
  induction qs with
  | nil => intro rel n; simp [expansionGo]
  | cons q qs ih =>
      intro rel n
      simp only [expansionGo, List.length_cons]
      split
      · have h := ih rel (n + 1)
        exact ⟨by omega, fun hlt => h.2 (by omega)⟩
      · next newSources hsq =>
          split
          · next hfloor => exact ⟨by omega, fun _ => hfloor⟩
          · have h := ih (mergeScored current_year goal rel newSources) (n + 1)
            exact ⟨by omega, fun hlt => h.2 (by omega)⟩

lemma expansionGo_titles_nodup (current_year : Int) (goal : String)
    (search : String → Nat → Option (List Candidate)) (qs : List String) :
    ∀ (rel : List Candidate) (n : Nat),
      (rel.map (fun c => c.title.getD "")).Nodup →
      ((expansionGo current_year goal search qs rel n).1.map
          (fun c => c.title.getD "")).Nodup := by
  induction qs with
  | nil => exact fun rel n h => h
  | cons q qs ih =>
      intro rel n h
      simp only [expansionGo]
      split
      · exact ih rel (n + 1) h
      · next newSources hsq =>
          split
          · exact mergeScored_titles_nodup current_year goal newSources rel h
          · exact ih _ (n + 1) (mergeScored_titles_nodup current_year goal newSources rel h)

lemma expansionGo_stop_on_floor (current_year : Int) (goal : String)
    (search : String → Nat → Option (List Candidate)) (q : String)
    (rest : List String) (srcs rel : List Candidate) (n : Nat)
    (hs : search q 10 = some srcs)
    (hfl : min_target_sources ≤ (mergeScored current_year goal rel srcs).length) :
    expansionGo current_year goal search (q :: rest) rel n
      = (mergeScored current_year goal rel srcs, n + 1) := by
  simp only [expansionGo, hs, if_pos hfl]

/-- C7 (amended): when fewer than 5 candidates survived the relevance
filter, the expansion sub-loop executes at most 2 queries; as soon as a
successful merge reaches the 5-candidate floor — at any point of the
loop, whatever the accepted state and however many queries remain — the
sub-loop returns immediately, issuing none of the remaining queries (and
it cuts the query list short only in that case); and it merges only
candidates whose TITLE (not url) is not already present among the
accepted candidates, so accepted titles stay duplicate-free. -/
theorem expansion_loop_bounds (current_year : Int) (goal : String)
    (search : String → Nat → Option (List Candidate)) (relevant : List Candidate)
    (_hfloor : relevant.length < min_target_sources)
    (hnodup : (relevant.map (fun c => c.title.getD "")).Nodup) :
    (expansionGo current_year goal search
        ((generate_expansion_queries goal).take 2) relevant 0).2 ≤ 2
    ∧ (∀ (q : String) (rest : List String) (srcs rel2 : List Candidate) (n : Nat),
        search q 10 = some srcs →
        min_target_sources ≤ (mergeScored current_year goal rel2 srcs).length →
        expansionGo current_year goal search (q :: rest) rel2 n
          = (mergeScored current_year goal rel2 srcs, n + 1))
    ∧ ((expansionGo current_year goal search
          ((generate_expansion_queries goal).take 2) relevant 0).2
            < ((generate_expansion_queries goal).take 2).length →
        min_target_sources ≤ (expansionGo current_year goal search
          ((generate_expansion_queries goal).take 2) relevant 0).1.length)
    ∧ ((expansionGo current_year goal search
          ((generate_expansion_queries goal).take 2) relevant 0).1.map
            (fun c => c.title.getD "")).Nodup := by
  have hs := expansionGo_spec current_year goal search
    ((generate_expansion_queries goal).take 2) relevant 0
  have hlen : ((generate_expansion_queries goal).take 2).length ≤ 2 :=
    List.length_take_le 2 (generate_expansion_queries goal)
  refine ⟨le_trans hs.1 (by omega),
    fun q rest srcs rel2 n hsq hfl =>
      expansionGo_stop_on_floor current_year goal search q rest srcs rel2 n hsq hfl,
    fun hlt => hs.2 (by omega), ?_⟩
  exact expansionGo_titles_nodup current_year goal search _ relevant 0 hnodup

lemma sem_t : score_semantic_keywords [] "transformer" "" "transformer" = 1 := by
  have e1 : extract_keywords "transformer" = ["transformer"] := by decide
  have e2 : extract_keywords "" = [] := by decide
  simp only [score_semantic_keywords, e1, e2]
  norm_num [dedupL]

lemma score_titled_transformer (u : Option String) :
    score_relevance [] 2026 { title := some "transformer", url := u } "transformer"
      = 21/25 := by
  simp only [score_relevance, Option.getD_some, Option.getD_none, sem_t]
  norm_num [score_citation_authority, score_recency, score_venue_domain,
    inStr, substrAux, beginsWith, lowerL, premiumVenues]

lemma merge_rel4 : mergeScored 2026 "transformer" rel4 [cDup] = rel4 ++ [cDup] := by
  simp only [mergeScored, List.foldl, rel4, cDup]
  norm_num [score_titled_transformer, relevance_threshold]
  simp +decide

/-- Witness for the amended C7: four accepted candidates (`rel4`) and an
oracle whose first expansion query returns one passing candidate; the
merge reaches the floor of 5 and the early-stop clause of the theorem,
instantiated there, shows the sub-loop returns at once with query count
1, never issuing the second query. -/
theorem expansion_loop_bounds_witness :
    ((expansionGo 2026 "transformer" dupSearch
        ((generate_expansion_queries "transformer").take 2) rel4 0).2 ≤ 2
      ∧ (∀ (q : String) (rest : List String) (srcs rel2 : List Candidate) (n : Nat),
          dupSearch q 10 = some srcs →
          min_target_sources ≤ (mergeScored 2026 "transformer" rel2 srcs).length →
          expansionGo 2026 "transformer" dupSearch (q :: rest) rel2 n
            = (mergeScored 2026 "transformer" rel2 srcs, n + 1))
      ∧ ((expansionGo 2026 "transformer" dupSearch
            ((generate_expansion_queries "transformer").take 2) rel4 0).2
              < ((generate_expansion_queries "transformer").take 2).length →
          min_target_sources ≤ (expansionGo 2026 "transformer" dupSearch
            ((generate_expansion_queries "transformer").take 2) rel4 0).1.length)
      ∧ ((expansionGo 2026 "transformer" dupSearch
            ((generate_expansion_queries "transformer").take 2) rel4 0).1.map
              (fun c => c.title.getD "")).Nodup)
    ∧ expansionGo 2026 "transformer" dupSearch
        ["transformer attention mechanism", "transformer BERT"] rel4 0
        = (rel4 ++ [cDup], 1) := by
  have h := expansion_loop_bounds 2026 "transformer" dupSearch rel4 (by decide) (by decide)
  refine ⟨h, ?_⟩
  rw [h.2.1 "transformer attention mechanism" ["transformer BERT"] [cDup] rel4 0
    (by decide) (by rw [merge_rel4]; decide), merge_rel4]

lemma gexp_transformer :
    generate_expansion_queries "transformer"
      = ["transformer attention mechanism", "transformer BERT"] := by decide

lemma expansionGo_dup_eval :
    (expansionGo 2026 "transformer" dupSearch
        ((generate_expansion_queries "transformer").take 2) [cOld] 0)
      = ([cOld, cDup], 2) := by
  rw [gexp_transformer]
  simp only [List.take, expansionGo, dupSearch]
  norm_num [mergeScored, cDup, cOld, score_titled_transformer, relevance_threshold,
    min_target_sources, expansionGo]
  simp +decide

/-- C7 counterexample: the expansion sub-loop deduplicates by TITLE, not
by url.  With `cOld` (title "A", url "u") already accepted, the expansion
result `cDup` (title "transformer", url "u", score 21/25 ≥ 0.50) is
merged even though its url is already present, so the accepted list ends
with the url "u" twice. -/
theorem expansion_merges_duplicate_url :
    ¬ (((expansionGo 2026 "transformer" dupSearch
          ((generate_expansion_queries "transformer").take 2) [cOld] 0).1.map
            (fun c => c.url.getD "")).Nodup) := by
  rw [expansionGo_dup_eval]
  decide

lemma mem_mergeScored (current_year : Int) (goal : String) (srcs : List Candidate) :
    ∀ (rel : List Candidate) (c : Candidate),
      c ∈ mergeScored current_year goal rel srcs → c ∈ rel ∨ c ∈ srcs := by
  induction srcs with
  | nil => exact fun rel c h => Or.inl h
  | cons s ss ih =>
      intro rel c h
      rw [show mergeScored current_year goal rel (s :: ss)
            = mergeScored current_year goal
                (if relevance_threshold ≤ score_relevance [] current_year s goal
                    ∧ ¬ (rel.any (fun t => t.title.getD "" == s.title.getD "")) then
                  rel ++ [s] else rel) ss from rfl] at h
      rcases ih _ c h with h' | h'
      · split at h'
        · rcases List.mem_append.mp h' with h2 | h2
          · exact Or.inl h2
          · simp only [List.mem_singleton] at h2
            subst h2
            exact Or.inr (List.mem_cons_self _ _)
        · exact Or.inl h'
      · exact Or.inr (List.mem_cons_of_mem _ h')

lemma mem_expansionGo (current_year : Int) (goal : String)
    (search : String → Nat → Option (List Candidate)) (qs : List String) :
    ∀ (rel : List Candidate) (n : Nat) (c : Candidate),
      c ∈ (expansionGo current_year goal search qs rel n).1 →
      c ∈ rel ∨ ∃ q ∈ qs, ∃ srcs, search q 10 = some srcs ∧ c ∈ srcs := by
  induction qs with
  | nil => intro rel n c h; exact Or.inl h
  | cons q qs ih =>
      intro rel n c h
      simp only [expansionGo] at h
      split at h
      · rcases ih rel (n + 1) c h with h' | ⟨q', hq', srcs, hs, hcs⟩
        · exact Or.inl h'
        · exact Or.inr ⟨q', List.mem_cons_of_mem _ hq', srcs, hs, hcs⟩
      · next newSources hsq =>
          split at h
          · dsimp only at h
            rcases mem_mergeScored current_year goal newSources rel c h with h' | h'
            · exact Or.inl h'
            · exact Or.inr ⟨q, List.mem_cons_self _ _, newSources, hsq, h'⟩
          · rcases ih _ (n + 1) c h with h' | ⟨q', hq', srcs, hs, hcs⟩
            · rcases mem_mergeScored current_year goal newSources rel c h' with h2 | h2
              · exact Or.inl h2
              · exact Or.inr ⟨q, List.mem_cons_self _ _, newSources, hsq, h2⟩
            · exact Or.inr ⟨q', List.mem_cons_of_mem _ hq', srcs, hs, hcs⟩

lemma relevancePhase_subset (current_year : Int) (goal : String)
    (v : List Candidate) (b : Bool) (c : Candidate)
    (h : c ∈ relevancePhase current_year goal v b) : c ∈ v := by
  unfold relevancePhase at h
  split at h
  · simp at h
  · split at h
    · exact h
    · exact List.mem_of_mem_filter h

lemma mem_of_mem_validate_all (p : Policies) (l : List Candidate) (c : Candidate)
    (h : c ∈ validate_all_sources p l) : c ∈ l := by
  rw [validate_all_sources, validate_all_sources_foldl, List.nil_append] at h
  exact List.mem_of_mem_filter h

/-- C1 (amended): every candidate in the final `sources_validated` either
shares its url with a member of `sources_found`, or was merged by the
search-expansion sub-loop from one of its search results — and such
expansion candidates need not appear in `sources_found` at all, because
the sub-loop appends them to `relevant_sources` without ever extending
`all_sources`. -/
theorem sources_validated_provenance (inp : LoopInput) (c : Candidate)
    (hc : c ∈ (execute_loop inp).sources_validated) :
    (∃ c2 ∈ (execute_loop inp).sources_found, c2.url = c.url)
    ∨ (∃ q srcs, inp.search q 10 = some srcs ∧ c ∈ srcs) := by
  simp only [execute_loop] at hc ⊢
  have hc1 := List.mem_of_mem_take hc
  split at hc1
  · rcases mem_expansionGo _ _ _ _ _ _ c hc1 with h' | ⟨q, _hq, srcs, hs, hcs⟩
    · exact Or.inl ⟨c, mem_of_mem_validate_all _ _ c
        (relevancePhase_subset _ _ _ _ c h'), rfl⟩
    · exact Or.inr ⟨q, srcs, hs, hcs⟩
  · exact Or.inl ⟨c, mem_of_mem_validate_all _ _ c
      (relevancePhase_subset _ _ _ _ c hc1), rfl⟩

lemma score_phaseOne (u : String) :
    score_relevance [] 2026 (phaseOneCand u) "transformer" = 4/25 := by
  have e : extract_keywords "" = [] := by decide
  have e1 : extract_keywords "transformer" = ["transformer"] := by decide
  simp only [score_relevance, phaseOneCand, score_semantic_keywords, e, e1,
    Option.getD_some, Option.getD_none]
  norm_num [score_citation_authority, score_recency, score_venue_domain, dedupL,
    inStr, substrAux, beginsWith, lowerL, premiumVenues]

lemma c1_phase1 : searchAll c1Search ["q1"] 20 [] = c1Five := by decide

lemma c1_gather : gather_sources c1Input = c1Five := by decide

lemma c1_validate : validate_all_sources {} c1Five = c1Five := by decide

lemma c1_relevance : relevancePhase 2026 "transformer" c1Five false = [] := by
  simp only [relevancePhase, c1Five]
  norm_num [List.filter, score_phaseOne, relevance_threshold]

lemma c1_expansion :
    expansionGo 2026 "transformer" c1Search
        ((generate_expansion_queries "transformer").take 2) [] 0 = ([cNew], 2) := by
  rw [gexp_transformer]
  simp only [List.take, expansionGo, c1Search]
  norm_num [mergeScored, cNew, score_titled_transformer, relevance_threshold,
    min_target_sources, expansionGo]
  simp +decide

lemma c1_validated_eval : (execute_loop c1Input).sources_validated = [cNew] := by
  simp only [execute_loop, show c1Input.policies = {} from rfl,
    show c1Input.current_year = 2026 from rfl,
    show c1Input.research_goal = "transformer" from rfl,
    show c1Input.scoring_fails = false from rfl,
    show c1Input.max_sources = 10 from rfl,
    show c1Input.search = c1Search from rfl,
    c1_gather, c1_validate, c1_relevance]
  rw [if_pos (by decide : ([] : List Candidate).length < min_target_sources),
    c1_expansion]
  decide

lemma c1_found_eval : (execute_loop c1Input).sources_found = c1Five := by
  simp only [execute_loop, c1_gather]

/-- C1 counterexample: a full run (input `c1Input`) in which the
expansion sub-loop merges `cNew`; the final `sources_validated` is
`[cNew]`, yet no member of `sources_found` carries `cNew`'s url — the
claimed subset invariant fails exactly on expansion-merged candidates. -/
theorem sources_validated_not_subset_found :
    (execute_loop c1Input).sources_validated = [cNew]
    ∧ ((execute_loop c1Input).sources_found.map (fun c => c.url)).contains cNew.url
        = false := by
  refine ⟨c1_validated_eval, ?_⟩
  rw [c1_found_eval]
  decide

/-- Witness for the amended C1 at the concrete run `c1Input` and the
expansion-merged candidate `cNew`. -/
theorem sources_validated_provenance_witness :
    (∃ c2 ∈ (execute_loop c1Input).sources_found, c2.url = cNew.url)
    ∨ (∃ q srcs, c1Input.search q 10 = some srcs ∧ cNew ∈ srcs) :=
  sources_validated_provenance c1Input cNew
    (by rw [c1_validated_eval]; exact List.mem_singleton_self _)

end Spec2Proof
